import Mathlib

/-!
Verification of `ping-pong-cell` (src/src/lib.rs and the oneshot channel built
on it in src/tests/test.rs).

The cell `PingPongCell<T>` holds a lock word (`state : AtomicUsize`) and a slot
(`value : UnsafeCell<Option<T>>`).  Each operation spins on
`state.compare_and_swap(WAITING, WORKING, Acquire)`: in a single-threaded
shallow embedding the spin loop terminates (in one iteration) exactly when the
lock word is `WAITING` on entry, and otherwise spins forever, since nobody else
can release the lock.  We therefore model every cell operation as a function
returning `Option (result × cell)`: `none` means the spin loop never exits.
The cell state recorded in the result is the lock word the operation actually
stored (the source's `self.state.store(_, Release)` calls) together with the
final slot contents.
-/

namespace PingPong

def WAITING : Nat := 0

def WORKING : Nat := 1

structure Cell (T : Type) where
  state : Nat
  value : Option T
  deriving DecidableEq

/-- `PingPongCell::new` (src/src/lib.rs lines 19-24). -/
def new {T : Type} (value : Option T) : Cell T :=
  Cell.mk WAITING value

/-- `PingPongCell::take` (src/src/lib.rs lines 27-39): acquires the lock,
takes the slot's value, then executes `self.state.store(WORKING, Release)` —
the source stores `WORKING`, not `WAITING`, on its only exit path. -/
def take {T : Type} (c : Cell T) : Option (Option T × Cell T) :=
  if c.state = WAITING then
    some (c.value, Cell.mk WORKING none)
  else
    none

/-- `PingPongCell::put` (src/src/lib.rs lines 42-54): overwrites the slot
unconditionally and stores `WAITING`. -/
def put {T : Type} (c : Cell T) (value : T) : Option (Unit × Cell T) :=
  if c.state = WAITING then
    some ((), Cell.mk WAITING (some value))
  else
    none

/-- `PingPongCell::put_if_empty` (src/src/lib.rs lines 57-74): if the slot
`is_some()` the function returns `Err(value)` without any
`self.state.store(WAITING, Release)` — the lock word stays `WORKING`;
only the empty branch stores `WAITING`. -/
def put_if_empty {T : Type} (c : Cell T) (value : T) :
    Option (Except T Unit × Cell T) :=
  if c.state = WAITING then
    match c.value with
    | some w => some (Except.error value, Cell.mk WORKING (some w))
    | none => some (Except.ok (), Cell.mk WAITING (some value))
  else
    none

/-- `PingPongCell::clone_inner` (src/src/lib.rs lines 79-91): clones the slot
contents (cloning is duplication of the same value in the model) and stores
`WAITING`. -/
def clone_inner {T : Type} (c : Cell T) : Option (Option T × Cell T) :=
  if c.state = WAITING then
    some (c.value, Cell.mk WAITING c.value)
  else
    none

/-- `PingPongCell::compare_and_swap` (src/src/lib.rs lines 96-119): if the slot
holds `val` and `val == expected`, it is replaced by `new` and the call
succeeds; on a mismatch or an empty slot it fails with `Err(new)`; every branch
stores `WAITING`. -/
def compare_and_swap {T : Type} [DecidableEq T] (c : Cell T)
    (expected fresh : T) : Option (Except T Unit × Cell T) :=
  if c.state = WAITING then
    match c.value with
    | some val =>
        if val = expected then
          some (Except.ok (), Cell.mk WAITING (some fresh))
        else
          some (Except.error fresh, Cell.mk WAITING (some val))
    | none => some (Except.error fresh, Cell.mk WAITING none)
  else
    none

/-- `PingPongCell::compare_swap_clone` (src/src/lib.rs lines 124-147): as
`compare_and_swap`, but on failure also hands back a clone of the stored value
(`None` when the slot was empty); every branch stores `WAITING`. -/
def compare_swap_clone {T : Type} [DecidableEq T] (c : Cell T)
    (expected fresh : T) : Option (Except (T × Option T) Unit × Cell T) :=
  if c.state = WAITING then
    match c.value with
    | some val =>
        if val = expected then
          some (Except.ok (), Cell.mk WAITING (some fresh))
        else
          some (Except.error (fresh, some val), Cell.mk WAITING (some val))
    | none => some (Except.error (fresh, none), Cell.mk WAITING none)
  else
    none

/-- Modelled from the spec: `PingPongCell::transact` is called by the channel
code in src/tests/test.rs but is absent from src/src/lib.rs.  Per the spec it
"acquires the lock via a compare-and-swap retry loop ..., invokes `f` with
exclusive access to the slot, releases the lock, and returns `f`'s result".
The `FnOnce(&mut Option<T>) -> R` callback is modelled by state passing: `f`
maps the slot contents to the result paired with the new slot contents, and
the lock word is `WAITING` (released) afterwards. -/
def transact {T R : Type} (c : Cell T) (f : Option T → R × Option T) :
    Option (R × Cell T) :=
  if c.state = WAITING then
    some ((f c.value).1, Cell.mk WAITING (f c.value).2)
  else
    none

/-!
The oneshot channel of src/tests/test.rs.  The channel's whole mutable state is
`PingPongCell<State<T>>`, i.e. a slot holding `Option (State T)` (`None` is the
Empty state).  Every channel operation performs `inner.cell.transact(...)` when
the endpoint's `inner: Option<Arc<Inner<T>>>` is present.  To reason about lock
ordering of wake notifications we record, per operation, the ordered trace of
events: lock acquisition, lock release (the two ends of each `transact`), and
every `waker.wake()` call — wakes issued from inside the `transact` closure
appear between the acquire and the release, wakes issued after `transact`
returns appear after the release.  Wake handles (`Waker`) are opaque values of
a type `H`; `context.waker().clone()` duplicates the same handle.

`Sender::send(self, ...)` and the error exit of `Sender::wait(self)` consume
`self`, so Rust runs `Drop for Sender` before the function returns; the models
`sendOp` and `waitStepOp` therefore include that drop transaction.  The `Ok`
exit of `wait` returns `self` (no drop) and `Receiver::poll` takes
`Pin<&mut Self>` (no drop).
-/

inductive ChanState (T H : Type) where
  | waker (h : H)
  | ready (v : T)
  | closed
  deriving DecidableEq

inductive Event (H : Type) where
  | acquire
  | release
  | wake (h : H)
  deriving DecidableEq

/-- The `Closed()` error struct of src/tests/test.rs. -/
inductive Closed where
  | mk
  deriving DecidableEq

/-- `core::task::Poll`. -/
inductive Poll (A : Type) where
  | ready (a : A)
  | pending
  deriving DecidableEq

/-- One `cell.transact(f)` call as the channel code performs it, at the trace
level (see `transact` for the lock-word model): the closure maps the slot to
(result, new slot, wakes it performed while holding the lock); the call's
trace brackets those wakes between the acquire and the release. -/
def transactT {T H R : Type} (slot : Option (ChanState T H))
    (f : Option (ChanState T H) → R × Option (ChanState T H) × List (Event H)) :
    R × Option (ChanState T H) × List (Event H) :=
  let r := f slot
  (r.1, r.2.1, Event.acquire :: (r.2.2 ++ [Event.release]))

/-- The closure of `Sender::send` (src/tests/test.rs lines 67-79):
`state.take()` empties the slot; the `Closed` arm returns `Err(Closed())`
without restoring the slot; the `Waker` arm stores `Ready(value)` and returns
the displaced waker; the `_` arm stores `Ready(value)`. -/
def sendTransactBody {T H : Type} (v : T) (st : Option (ChanState T H)) :
    Except Closed (Option H) × Option (ChanState T H) × List (Event H) :=
  match st with
  | some ChanState.closed => (Except.error Closed.mk, none, [])
  | some (ChanState.waker w) => (Except.ok (some w), some (ChanState.ready v), [])
  | _ => (Except.ok none, some (ChanState.ready v), [])

/-- The closure of `Drop for Sender` (src/tests/test.rs lines 116-132): a
`Waker` entry becomes `Closed` and the waker is handed out; `Ready`/`Closed`
are put back unchanged; an empty slot becomes `Closed`. -/
def senderDropBody {T H : Type} (st : Option (ChanState T H)) :
    Option H × Option (ChanState T H) × List (Event H) :=
  match st with
  | some (ChanState.waker w) => (some w, some ChanState.closed, [])
  | some other => (none, some other, [])
  | none => (none, some ChanState.closed, [])

/-- `Drop for Sender` (src/tests/test.rs lines 113-138): when `inner` is
present, runs the drop transaction and then wakes the handed-out waker, if
any, after the lock is released. -/
def senderDropOp {T H : Type} (inner : Bool) (slot : Option (ChanState T H)) :
    Option (ChanState T H) × List (Event H) :=
  if inner then
    let r := transactT slot senderDropBody
    match r.1 with
    | some w => (r.2.1, r.2.2 ++ [Event.wake w])
    | none => (r.2.1, r.2.2)
  else
    (slot, [])

/-- `Sender::send` (src/tests/test.rs lines 65-91): with `inner` present, one
transaction, then `waker.wake()` outside the lock on the `Ok(Some(waker))`
path; `send` consumes `self`, so `Drop for Sender` runs before it returns.
With `inner` absent it returns `Err(Closed())` and the drop does nothing. -/
def sendOp {T H : Type} (inner : Bool) (slot : Option (ChanState T H)) (v : T) :
    Except Closed Unit × Option (ChanState T H) × List (Event H) :=
  if inner then
    let r := transactT slot (sendTransactBody v)
    let step : Except Closed Unit × List (Event H) :=
      match r.1 with
      | Except.ok (some w) => (Except.ok (), [Event.wake w])
      | Except.ok none => (Except.ok (), [])
      | Except.error e => (Except.error e, [])
    let d := senderDropOp true r.2.1
    (step.1, d.1, r.2.2 ++ step.2 ++ d.2)
  else
    (Except.error Closed.mk, slot, [])

/-- The closure of one `Sender::wait` loop iteration (src/tests/test.rs lines
42-54): `Closed` resolves `Err` leaving the slot empty; an existing `Waker` is
put back and the step resolves `Ok`; otherwise the fresh handle is stored and
the step is `Pending`. -/
def waitTransactBody {T H : Type} (wake_me : H) (st : Option (ChanState T H)) :
    Poll (Except Closed Unit) × Option (ChanState T H) × List (Event H) :=
  match st with
  | some ChanState.closed => (Poll.ready (Except.error Closed.mk), none, [])
  | some (ChanState.waker w) => (Poll.ready (Except.ok ()), some (ChanState.waker w), [])
  | _ => (Poll.pending, some (ChanState.waker wake_me), [])

/-- One loop iteration of `Sender::wait` (src/tests/test.rs lines 39-62):
`Pending` sleeps keeping the handle; `Ready(Ok)` returns `Ok(self)` (no drop);
`Ready(Err)` returns `Err(Closed())`, dropping `self` so `Drop for Sender`
runs.  With `inner` absent the loop body never runs and `wait` returns
`Err(Closed())` without touching the slot. -/
def waitStepOp {T H : Type} (inner : Bool) (slot : Option (ChanState T H))
    (wake_me : H) :
    Poll (Except Closed Unit) × Option (ChanState T H) × List (Event H) :=
  if inner then
    let r := transactT slot (waitTransactBody wake_me)
    match r.1 with
    | Poll.pending => (Poll.pending, r.2.1, r.2.2)
    | Poll.ready (Except.ok _) => (Poll.ready (Except.ok ()), r.2.1, r.2.2)
    | Poll.ready (Except.error e) =>
        let d := senderDropOp true r.2.1
        (Poll.ready (Except.error e), d.1, r.2.2 ++ d.2)
  else
    (Poll.ready (Except.error Closed.mk), slot, [])

/-- The closure of `Future::poll for Receiver` (src/tests/test.rs lines
164-178): `Closed` resolves `Err` leaving the slot empty; `Ready(value)`
resolves `Ok(value)` leaving the slot empty; a `Waker` entry is replaced by
the context's own handle and the displaced waker is woken INSIDE the closure
(`waker.wake()` on line 170, while the lock is held); an empty slot stores the
context's handle. -/
def pollTransactBody {T H : Type} (ctxWaker : H) (st : Option (ChanState T H)) :
    Poll (Except Closed T) × Option (ChanState T H) × List (Event H) :=
  match st with
  | some ChanState.closed => (Poll.ready (Except.error Closed.mk), none, [])
  | some (ChanState.ready v) => (Poll.ready (Except.ok v), none, [])
  | some (ChanState.waker w) =>
      (Poll.pending, some (ChanState.waker ctxWaker), [Event.wake w])
  | none => (Poll.pending, some (ChanState.waker ctxWaker), [])

/-- `Future::poll for Receiver` (src/tests/test.rs lines 159-183): one
transaction when `inner` is present; `Poll::Ready(Err(Closed()))` without
touching the slot when it is absent.  `poll` does not consume the receiver. -/
def pollOp {T H : Type} (inner : Bool) (slot : Option (ChanState T H))
    (ctxWaker : H) :
    Poll (Except Closed T) × Option (ChanState T H) × List (Event H) :=
  if inner then
    transactT slot (pollTransactBody ctxWaker)
  else
    (Poll.ready (Except.error Closed.mk), slot, [])

/-- The closure of `Drop for Receiver` (src/tests/test.rs lines 143-151):
every state becomes `Closed`; a displaced `Waker` is handed out to be woken
after the lock is released. -/
def receiverDropBody {T H : Type} (st : Option (ChanState T H)) :
    Option H × Option (ChanState T H) × List (Event H) :=
  match st with
  | some (ChanState.waker w) => (some w, some ChanState.closed, [])
  | _ => (none, some ChanState.closed, [])

/-- `Drop for Receiver` (src/tests/test.rs lines 140-157). -/
def receiverDropOp {T H : Type} (inner : Bool) (slot : Option (ChanState T H)) :
    Option (ChanState T H) × List (Event H) :=
  if inner then
    let r := transactT slot receiverDropBody
    match r.1 with
    | some w => (r.2.1, r.2.2 ++ [Event.wake w])
    | none => (r.2.1, r.2.2)
  else
    (slot, [])

/-- `anyWakeLocked tr d = true` iff the trace `tr`, started at lock depth `d`,
contains a `wake` event at positive lock depth, i.e. a wake delivered while
the lock is held. -/
def anyWakeLocked {H : Type} : List (Event H) → Nat → Bool
  | [], _ => false
  | Event.acquire :: rest, d => anyWakeLocked rest (d + 1)
  | Event.release :: rest, d => anyWakeLocked rest (d - 1)
  | Event.wake _ :: rest, d => decide (0 < d) || anyWakeLocked rest d

/-!
Theorems settling the claims.
-/

/-- Claim C1: the claim that every cell operation returns with the lock back in
the released (`WAITING`) state, so a subsequent operation can acquire it, is
violated by the code: `take` stores `WORKING` on its only exit path
(src/src/lib.rs line 32), and `put_if_empty` on a nonempty slot returns
`Err(value)` without any release store (lines 62-63); in both cases the lock
word is `WORKING` afterwards, so the next operation's acquire loop spins
forever (modelled as `none`). -/
theorem C1_lock_release_bug :
    take (Cell.mk WAITING (some 0)) = some (some 0, Cell.mk WORKING none) ∧
    put_if_empty (Cell.mk WAITING (some 0)) 1 =
      some (Except.error 1, Cell.mk WORKING (some 0)) ∧
    take (Cell.mk WORKING (none : Option Nat)) = none ∧
    put (Cell.mk WORKING (none : Option Nat)) 2 = none ∧
    WORKING ≠ WAITING :=
  ⟨rfl, rfl, rfl, rfl, by decide⟩

/-- Claim C6: `compare_and_swap expected new` on a cell whose lock is free
succeeds and replaces the stored value with `new` exactly when the slot holds
a value equal to `expected`; otherwise it fails returning `new` and leaves the
slot unchanged (also when the slot is empty), releasing the lock either way. -/
theorem C6_cas_correct {T : Type} [DecidableEq T] (c : Cell T)
    (expected fresh : T) (h : c.state = WAITING) :
    compare_and_swap c expected fresh =
      some (if c.value = some expected then
              ((Except.ok () : Except T Unit), Cell.mk WAITING (some fresh))
            else
              (Except.error fresh, Cell.mk WAITING c.value)) := by
  obtain ⟨s, v⟩ := c
  simp only at h
  subst h
  cases v with
  | none => simp [compare_and_swap]
  | some val =>
      by_cases hv : val = expected
      · subst hv
        simp [compare_and_swap]
      · simp [compare_and_swap, hv]

/-- Claim C6, witness: `compare_and_swap` at a concrete cell. -/
theorem C6_cas_correct_witness :
    (Cell.mk WAITING (some 5) : Cell Nat).state = WAITING ∧
    compare_and_swap (Cell.mk WAITING (some 5)) 5 7 =
      some (if (Cell.mk WAITING (some 5) : Cell Nat).value = some 5 then
              ((Except.ok () : Except Nat Unit), Cell.mk WAITING (some 7))
            else
              (Except.error 7, Cell.mk WAITING (Cell.mk WAITING (some 5)).value)) :=
  ⟨rfl, C6_cas_correct (Cell.mk WAITING (some 5)) 5 7 rfl⟩

/-- Claim C8: the spec-modelled `transact` primitive does account for `put`,
`clone_inner`, `compare_and_swap` and `compare_swap_clone` (each equals its
transact-based definition on every cell), but `take` and `put_if_empty` are
NOT equivalent to their transact-based definitions: `transact` always releases
the lock, while `take` (and the failure branch of `put_if_empty`) returns with
the lock word still `WORKING`. -/
theorem C8_transact_refinement :
    (∀ (T : Type) (c : Cell T) (v : T),
        put c v = transact c (fun _ => ((), some v))) ∧
    (∀ (T : Type) (c : Cell T),
        clone_inner c = transact c (fun s => (s, s))) ∧
    (∀ (T : Type) [DecidableEq T] (c : Cell T) (e n : T),
        compare_and_swap c e n = transact c (fun s =>
          match s with
          | some val =>
              if val = e then ((Except.ok () : Except T Unit), some n)
              else (Except.error n, some val)
          | none => (Except.error n, none))) ∧
    (∀ (T : Type) [DecidableEq T] (c : Cell T) (e n : T),
        compare_swap_clone c e n = transact c (fun s =>
          match s with
          | some val =>
              if val = e then
                ((Except.ok () : Except (T × Option T) Unit), some n)
              else (Except.error (n, some val), some val)
          | none => (Except.error (n, none), none))) ∧
    take (Cell.mk WAITING (some 0)) ≠
      transact (Cell.mk WAITING (some 0)) (fun s => (s, none)) ∧
    put_if_empty (Cell.mk WAITING (some 0)) 1 ≠
      transact (Cell.mk WAITING (some 0)) (fun s =>
        match s with
        | some w => ((Except.error 1 : Except Nat Unit), some w)
        | none => (Except.ok (), some 1)) := by
  refine ⟨?_, ?_, ?_, ?_, ?_, ?_⟩
  · intro T c v
    obtain ⟨s, w⟩ := c
    by_cases hs : s = WAITING <;> simp [put, transact, hs]
  · intro T c
    obtain ⟨s, w⟩ := c
    by_cases hs : s = WAITING <;> simp [clone_inner, transact, hs]
  · intro T inst c e n
    obtain ⟨s, w⟩ := c
    by_cases hs : s = WAITING
    · cases w with
      | none => simp [compare_and_swap, transact, hs]
      | some val =>
          by_cases hv : val = e <;>
            simp [compare_and_swap, transact, hs, hv]
    · simp [compare_and_swap, transact, hs]
  · intro T inst c e n
    obtain ⟨s, w⟩ := c
    by_cases hs : s = WAITING
    · cases w with
      | none => simp [compare_swap_clone, transact, hs]
      | some val =>
          by_cases hv : val = e <;>
            simp [compare_swap_clone, transact, hs, hv]
    · simp [compare_swap_clone, transact, hs]
  · decide
  · simp [put_if_empty, transact, WORKING, WAITING]

/-- Claim C3: `Sender::send` from `Closed` fails with `Closed` and the slot is
`Closed` again when it returns (the drop of the consumed handle restores it);
from `Waiting(h)` it stores `Ready(value)`, succeeds, and wakes `h`; from
`Empty` it stores `Ready(value)` and succeeds. -/
theorem C3_send_transitions {T H : Type} (v : T) (h : H) :
    sendOp true (some (ChanState.closed : ChanState T H)) v =
      (Except.error Closed.mk, some ChanState.closed,
        [Event.acquire, Event.release, Event.acquire, Event.release]) ∧
    sendOp true (some (ChanState.waker h : ChanState T H)) v =
      (Except.ok (), some (ChanState.ready v),
        [Event.acquire, Event.release, Event.wake h,
         Event.acquire, Event.release]) ∧
    sendOp true (none : Option (ChanState T H)) v =
      (Except.ok (), some (ChanState.ready v),
        [Event.acquire, Event.release, Event.acquire, Event.release]) :=
  ⟨rfl, rfl, rfl⟩

/-- Claim C5: one `Receiver` poll step from `Closed` resolves `Err(Closed)`
consuming the slot; from `Ready(value)` it resolves `Ok(value)` consuming the
slot; from `Waiting(existing)` it stores its own handle, wakes `existing`, and
stays `Pending`; from `Empty` it stores its own handle and stays `Pending`. -/
theorem C5_poll_transitions {T H : Type} (v : T) (ex own : H) :
    pollOp true (some (ChanState.closed : ChanState T H)) own =
      (Poll.ready (Except.error Closed.mk), none,
        [Event.acquire, Event.release]) ∧
    pollOp true (some (ChanState.ready v : ChanState T H)) own =
      (Poll.ready (Except.ok v), none, [Event.acquire, Event.release]) ∧
    pollOp true (some (ChanState.waker ex : ChanState T H)) own =
      (Poll.pending, some (ChanState.waker own),
        [Event.acquire, Event.wake ex, Event.release]) ∧
    pollOp true (none : Option (ChanState T H)) own =
      (Poll.pending, some (ChanState.waker own),
        [Event.acquire, Event.release]) :=
  ⟨rfl, rfl, rfl, rfl⟩

/-- Claim C2, counterexample: a `Receiver` poll on a `Closed` channel leaves
the slot empty (`None`), not `Closed` — the poll closure takes the `Closed`
state out and never puts it back — so `Closed` is not absorbing across all
five listed operations. -/
theorem C2_cex :
    (pollOp true (some (ChanState.closed : ChanState Nat Nat)) 0).2.1 = none ∧
    (none : Option (ChanState Nat Nat)) ≠ some ChanState.closed :=
  ⟨rfl, by decide⟩

/-- Claim C2, amended: `Closed` is preserved by `Sender::send` (whose drop of
the consumed handle restores it), by a `Sender::wait` step (likewise), by
`Drop for Sender` and by `Drop for Receiver`; a `Receiver` poll from `Closed`,
however, consumes the slot and leaves it empty. -/
theorem C2_closed_absorbing_amended {T H : Type} (v : T) (hmine w : H) :
    (sendOp true (some (ChanState.closed : ChanState T H)) v).2.1 =
      some ChanState.closed ∧
    (waitStepOp true (some (ChanState.closed : ChanState T H)) hmine).2.1 =
      some ChanState.closed ∧
    (senderDropOp true (some (ChanState.closed : ChanState T H))).1 =
      some ChanState.closed ∧
    (receiverDropOp true (some (ChanState.closed : ChanState T H))).1 =
      some ChanState.closed ∧
    (pollOp true (some (ChanState.closed : ChanState T H)) w).2.1 = none :=
  ⟨rfl, rfl, rfl, rfl, rfl⟩

/-- Claim C4, counterexample: a rejected `send` does not return the sent value
to the caller: `send` on a `Closed` channel returns `Err(Closed())` and its
entire observable outcome (result, final state, trace) is identical for the
two distinct values `0` and `1`, so the value cannot be recovered from the
result — it is dropped. -/
theorem C4_cex :
    sendOp true (some (ChanState.closed : ChanState Nat Nat)) 0 =
      sendOp true (some (ChanState.closed : ChanState Nat Nat)) 1 ∧
    (sendOp true (some (ChanState.closed : ChanState Nat Nat)) 0).1 =
      Except.error Closed.mk :=
  ⟨rfl, rfl⟩

/-- Claim C4, amended: a rejected `Sender::send(v)` returns only the `Closed`
error; the value `v` is not part of the result (the outcome of a rejected send
does not depend on `v`), i.e. the sent value is dropped rather than handed
back. -/
theorem C4_rejected_send_drops_value {T H : Type} (v₁ v₂ : T) :
    (sendOp true (some (ChanState.closed : ChanState T H)) v₁).1 =
      Except.error Closed.mk ∧
    (sendOp false (some (ChanState.closed : ChanState T H)) v₁).1 =
      Except.error Closed.mk ∧
    sendOp true (some (ChanState.closed : ChanState T H)) v₁ =
      sendOp true (some (ChanState.closed : ChanState T H)) v₂ :=
  ⟨rfl, rfl, rfl⟩

/-- Claim C7, counterexample: `Receiver::poll` on a `Waiting` slot wakes the
displaced waker from inside the `transact` closure, i.e. while the cell's lock
is held: its trace contains a wake at positive lock depth. -/
theorem C7_cex :
    anyWakeLocked
      ((pollOp true (some (ChanState.waker 0 : ChanState Nat Nat)) 1).2.2)
      0 = true :=
  rfl

/-- Claim C7, amended: `Sender::send`, a `Sender::wait` step, `Drop for
Sender` and `Drop for Receiver` deliver wake notifications only after the lock
is released (no wake at positive lock depth in their traces, from any starting
state), but `Receiver::poll` from `Waiting` invokes the displaced handle while
the lock is still held. -/
theorem C7_wake_outside_lock_amended {T H : Type}
    (slot : Option (ChanState T H)) (v : T) (ex own : H) :
    anyWakeLocked (sendOp true slot v).2.2 0 = false ∧
    anyWakeLocked (waitStepOp true slot own).2.2 0 = false ∧
    anyWakeLocked (senderDropOp true slot).2 0 = false ∧
    anyWakeLocked (receiverDropOp true slot).2 0 = false ∧
    anyWakeLocked
      (pollOp true (some (ChanState.waker ex : ChanState T H)) own).2.2
      0 = true := by
  cases slot with
  | none => exact ⟨rfl, rfl, rfl, rfl, rfl⟩
  | some st =>
      cases st with
      | waker w => exact ⟨rfl, rfl, rfl, rfl, rfl⟩
      | ready x => exact ⟨rfl, rfl, rfl, rfl, rfl⟩
      | closed => exact ⟨rfl, rfl, rfl, rfl, rfl⟩

/-- Claim C10: with the endpoint reference absent (`inner = false`), `send`
returns `Err(Closed)`, a `wait` step resolves `Err(Closed)`, and `poll`
resolves `Ready(Err(Closed))`, in every case leaving the shared slot untouched
and performing no lock or wake event. -/
theorem C10_absent_endpoint_degrades {T H : Type}
    (slot : Option (ChanState T H)) (v : T) (hmine w : H) :
    sendOp false slot v = (Except.error Closed.mk, slot, []) ∧
    waitStepOp false slot hmine =
      (Poll.ready (Except.error Closed.mk), slot, []) ∧
    pollOp false slot w = (Poll.ready (Except.error Closed.mk), slot, []) :=
  ⟨rfl, rfl, rfl⟩

end PingPong
